import Mathlib

/-!
Shallow embedding of the GRC platform's control-hierarchy, scope-resolution,
question-materialization, scoped-RBAC, finding-numbering and response-scoring
logic, with proofs of the specified properties.

Database tables are embedded as Lean lists of row structures; UUID ids are
embedded as naturals; fallible operations return `Except`.
-/

namespace Grc

/-- UserRole row (iam/models.py): a role grant carrying an access scope
(`global`, `organization` or `business_unit`) and the id of the scoped
object. -/
structure UserRole where
  scope_type : String
  scope_id : Nat
  deriving DecidableEq, Repr

/-- AppUser (iam/models.py) as consumed by the permission evaluator: the
authentication flag and the user's UserRole rows. -/
structure AppUser where
  is_authenticated : Bool
  user_roles : List UserRole
  deriving DecidableEq, Repr

/-- Scope access evaluator, from iam/permissions.py `has_scope_access`:
an unauthenticated user is denied; any role with scope_type `global` grants
access to everything; otherwise an exact (scope_type, scope_id) role match is
required. -/
def has_scope_access (user : AppUser) (scope_type : String) (scope_id : Nat) : Bool :=
  if !user.is_authenticated then
    false
  else if user.user_roles.any (fun r => r.scope_type == "global") then
    true
  else
    user.user_roles.any (fun r => r.scope_type == scope_type && r.scope_id == scope_id)

/-- C7: `has_scope_access` returns true for any holder of a global role
regardless of the arguments; otherwise it returns true iff the user holds a
UserRole whose (scope_type, scope_id) equal the arguments exactly; in
particular a user whose only roles are business-unit-scoped is denied every
organization-scoped check (scope types are not transitive). -/
theorem c7_scope_access_evaluation (user : AppUser) (st : String) (sid : Nat)
    (hauth : user.is_authenticated = true) :
    ((∃ r ∈ user.user_roles, r.scope_type = "global") →
        has_scope_access user st sid = true) ∧
    ((¬ ∃ r ∈ user.user_roles, r.scope_type = "global") →
        (has_scope_access user st sid = true ↔
          ∃ r ∈ user.user_roles, r.scope_type = st ∧ r.scope_id = sid)) ∧
    ((∀ r ∈ user.user_roles, r.scope_type = "business_unit") → st = "organization" →
        has_scope_access user st sid = false) := by
  have hglobal : (user.user_roles.any (fun r => r.scope_type == "global")) = true ↔
      ∃ r ∈ user.user_roles, r.scope_type = "global" := by
    simp [List.any_eq_true]
  refine ⟨?_, ?_, ?_⟩
  · intro hg
    simp [has_scope_access, hauth, hglobal.mpr hg]
  · intro hg
    have hfalse : (user.user_roles.any (fun r => r.scope_type == "global")) = false := by
      cases h : user.user_roles.any (fun r => r.scope_type == "global") with
      | true => exact absurd (hglobal.mp h) hg
      | false => rfl
    simp [has_scope_access, hauth, hfalse, List.any_eq_true]
  · intro hbu hst
    have hg : ¬ ∃ r ∈ user.user_roles, r.scope_type = "global" := by
      rintro ⟨r, hr, hrg⟩
      have := hbu r hr
      simp [this] at hrg
    have hfalse : (user.user_roles.any (fun r => r.scope_type == "global")) = false := by
      cases h : user.user_roles.any (fun r => r.scope_type == "global") with
      | true => exact absurd (hglobal.mp h) hg
      | false => rfl
    subst hst
    simp only [has_scope_access, hauth, hfalse, Bool.not_true, Bool.false_eq_true,
      if_false, if_pos]
    simp only [List.any_eq_false]
    intro r hr
    have := hbu r hr
    simp [this]

/-- Witness for C7 at a concrete user: a user whose only role is
business-unit-scoped is denied an organization-scoped access check. -/
theorem c7_scope_access_evaluation_witness :
    has_scope_access ⟨true, [⟨"business_unit", 5⟩]⟩ "organization" 9 = false :=
  (c7_scope_access_evaluation ⟨true, [⟨"business_unit", 5⟩]⟩ "organization" 9 rfl).2.2
    (by decide) rfl

/-- Check whether `pat` occurs at the head of `s` (character lists). -/
def leadMatch : List Char → List Char → Bool
  | [], _ => true
  | _ :: _, [] => false
  | a :: as, b :: bs => a == b && leadMatch as bs

/-- Substring test, embedding the Python expression `pat in s` on strings. -/
def strContainsSub (s pat : String) : Bool :=
  (List.range (s.toList.length + 1)).any (fun i => leadMatch pat.toList (s.toList.drop i))

/-- A row of a collection being scope-filtered, reduced to its id and the
value of the column named by `scope_field` (the column the OR'd equality
filter of iam/permissions.py `filter_by_user_scope` is applied against). -/
structure ScopedRow where
  id : Nat
  scope_value : Nat
  deriving DecidableEq, Repr

/-- Collection scope filter, from iam/permissions.py `filter_by_user_scope`:
unauthenticated users get nothing; global roles see everything; otherwise an
OR'd equality filter is built from the user's organization-scoped ids and,
only when the string `business_unit` occurs in `scope_field`, the user's
business-unit-scoped ids; an empty filter yields the empty result. -/
def filter_by_user_scope (queryset : List ScopedRow) (user : AppUser)
    (scope_field : String) : List ScopedRow :=
  if !user.is_authenticated then
    []
  else if user.user_roles.any (fun r => r.scope_type == "global") then
    queryset
  else
    let user_scopes := user.user_roles.filter (fun r => !(r.scope_type == "global"))
    let org_scopes :=
      (user_scopes.filter (fun r => r.scope_type == "organization")).map (fun r => r.scope_id)
    let bu_scopes :=
      (user_scopes.filter (fun r => r.scope_type == "business_unit")).map (fun r => r.scope_id)
    let scope_filter : List (Nat → Bool) :=
      (if !org_scopes.isEmpty then [fun v => org_scopes.contains v] else []) ++
      (if !bu_scopes.isEmpty && strContainsSub scope_field "business_unit" then
        [fun v => bu_scopes.contains v] else [])
    if !scope_filter.isEmpty then
      queryset.filter (fun row => scope_filter.any (fun q => q row.scope_value))
    else
      []

/-- Union of all organization-scoped and business-unit-scoped ids the user
holds, as the claim describes the filter. -/
def claimScopeIdUnion (user : AppUser) : List Nat :=
  ((user.user_roles.filter (fun r => r.scope_type == "organization")).map fun r => r.scope_id) ++
  ((user.user_roles.filter (fun r => r.scope_type == "business_unit")).map fun r => r.scope_id)

/-- Organization-scoped ids held by the user. -/
def orgScopeIds (user : AppUser) : List Nat :=
  (user.user_roles.filter (fun r => r.scope_type == "organization")).map fun r => r.scope_id

/-- Business-unit-scoped ids held by the user. -/
def buScopeIds (user : AppUser) : List Nat :=
  (user.user_roles.filter (fun r => r.scope_type == "business_unit")).map fun r => r.scope_id

/-- C8 counterexample: for an authenticated user holding a single
business-unit role for id 7 and a queryset with one row whose scope column
value is 7, filtering on the default `organization_id` field keeps nothing,
although 7 lies in the union of the user's organization- and
business-unit-scoped ids, so the claimed characterization of the kept rows is
false at this input. -/
theorem c8_counterexample :
    ¬ (∀ row ∈ ([⟨1, 7⟩] : List ScopedRow),
        row ∈ filter_by_user_scope [⟨1, 7⟩] ⟨true, [⟨"business_unit", 7⟩]⟩ "organization_id" ↔
          row.scope_value ∈ claimScopeIdUnion ⟨true, [⟨"business_unit", 7⟩]⟩) := by
  decide

/-- Filtering out global roles first and then keeping roles of a non-global
scope type is the same as keeping that scope type directly. -/
theorem filter_nonglobal_filter (roles : List UserRole) (t : String) (ht : t ≠ "global") :
    (roles.filter (fun r => !(r.scope_type == "global"))).filter
        (fun r => r.scope_type == t) =
      roles.filter (fun r => r.scope_type == t) := by
  induction roles with
  | nil => rfl
  | cons r rs ih =>
    by_cases hg : r.scope_type = "global"
    · have hg' : (r.scope_type == "global") = true := beq_iff_eq.mpr hg
      have h' : (r.scope_type == t) = false := by
        rw [hg]
        exact beq_eq_false_iff_ne.mpr fun hc => ht hc.symm
      simp [List.filter_cons, hg', h', ih]
    · have hg' : (r.scope_type == "global") = false := beq_eq_false_iff_ne.mpr hg
      by_cases h : r.scope_type = t
      · have h' : (r.scope_type == t) = true := beq_iff_eq.mpr h
        simp [List.filter_cons, hg', h', ih]
      · have h' : (r.scope_type == t) = false := beq_eq_false_iff_ne.mpr h
        simp [List.filter_cons, hg', h', ih]

/-- Membership in the final filter step of `filter_by_user_scope`: with an
empty predicate list nothing is kept, otherwise a row is kept iff some
predicate accepts its scope value. -/
theorem mem_scope_filter_step (queryset : List ScopedRow) (fs : List (Nat → Bool))
    (row : ScopedRow) :
    (row ∈ if !fs.isEmpty then
        queryset.filter (fun r => fs.any (fun q => q r.scope_value)) else []) ↔
      row ∈ queryset ∧ fs.any (fun q => q row.scope_value) = true := by
  cases fs with
  | nil => simp
  | cons f fs => simp [List.mem_filter]

/-- C8 amended: for an authenticated user with no global role, a row is kept
by `filter_by_user_scope` iff it is in the queryset and its scope column value
is one of the user's organization-scoped ids or — only when the string
`business_unit` occurs in `scope_field` — one of the user's
business-unit-scoped ids; a user holding no roles at all gets the empty
result (fail-closed). -/
theorem c8_amended_scope_filtering (queryset : List ScopedRow) (user : AppUser)
    (scope_field : String)
    (hauth : user.is_authenticated = true)
    (hng : ¬ ∃ r ∈ user.user_roles, r.scope_type = "global") :
    (∀ row, row ∈ filter_by_user_scope queryset user scope_field ↔
        row ∈ queryset ∧
          (row.scope_value ∈ orgScopeIds user ∨
            (strContainsSub scope_field "business_unit" = true ∧
              row.scope_value ∈ buScopeIds user))) ∧
    (user.user_roles = [] → filter_by_user_scope queryset user scope_field = []) := by
  have hfalse : (user.user_roles.any (fun r => r.scope_type == "global")) = false := by
    rw [List.any_eq_false]
    intro r hr
    simp only [Bool.not_eq_true, beq_eq_false_iff_ne]
    exact fun hc => hng ⟨r, hr, hc⟩
  have horgeq :
      ((user.user_roles.filter (fun r => !(r.scope_type == "global"))).filter
          (fun r => r.scope_type == "organization")).map (fun r => r.scope_id) =
        orgScopeIds user := by
    rw [filter_nonglobal_filter user.user_roles "organization" (by decide)]
    rfl
  have hbueq :
      ((user.user_roles.filter (fun r => !(r.scope_type == "global"))).filter
          (fun r => r.scope_type == "business_unit")).map (fun r => r.scope_id) =
        buScopeIds user := by
    rw [filter_nonglobal_filter user.user_roles "business_unit" (by decide)]
    rfl
  have main : ∀ row, row ∈ filter_by_user_scope queryset user scope_field ↔
      row ∈ queryset ∧
        (row.scope_value ∈ orgScopeIds user ∨
          (strContainsSub scope_field "business_unit" = true ∧
            row.scope_value ∈ buScopeIds user)) := by
    intro row
    unfold filter_by_user_scope
    simp only [hauth, hfalse, Bool.not_true, Bool.false_eq_true, if_false, horgeq, hbueq]
    rw [mem_scope_filter_step]
    have hany :
        ((if !(orgScopeIds user).isEmpty then
            [fun v => (orgScopeIds user).contains v] else []) ++
          (if !(buScopeIds user).isEmpty && strContainsSub scope_field "business_unit" then
            [fun v => (buScopeIds user).contains v] else [])).any
            (fun q => q row.scope_value) = true ↔
          (row.scope_value ∈ orgScopeIds user ∨
            (strContainsSub scope_field "business_unit" = true ∧
              row.scope_value ∈ buScopeIds user)) := by
      by_cases h1 : (orgScopeIds user).isEmpty = true
      · have h1' : orgScopeIds user = [] := List.isEmpty_iff.mp h1
        by_cases h2 : strContainsSub scope_field "business_unit" = true
        · by_cases h3 : (buScopeIds user).isEmpty = true
          · have h3' : buScopeIds user = [] := List.isEmpty_iff.mp h3
            simp [h1, h2, h3, h1', h3']
          · have h3' : (buScopeIds user).isEmpty = false := by
              simpa using h3
            simp [h1, h2, h3', h1']
        · have h2' : strContainsSub scope_field "business_unit" = false := by
            simpa using h2
          simp [h1, h2', h1']
      · have h1' : (orgScopeIds user).isEmpty = false := by
          simpa using h1
        by_cases h2 : strContainsSub scope_field "business_unit" = true
        · by_cases h3 : (buScopeIds user).isEmpty = true
          · have h3' : buScopeIds user = [] := List.isEmpty_iff.mp h3
            simp [h1', h2, h3, h3']
          · have h3' : (buScopeIds user).isEmpty = false := by
              simpa using h3
            simp [h1', h2, h3']
        · have h2' : strContainsSub scope_field "business_unit" = false := by
            simpa using h2
          simp [h1', h2']
    rw [hany]
  refine ⟨main, ?_⟩
  intro hnil
  rw [List.eq_nil_iff_forall_not_mem]
  intro row hrow
  rcases (main row).mp hrow with ⟨-, h | ⟨-, h⟩⟩ <;>
    simp [orgScopeIds, buScopeIds, hnil] at h

/-- Witness for C8's amended theorem at a concrete input: a user with an
organization role for id 3 keeps the row whose organization column value
is 3. -/
theorem c8_amended_scope_filtering_witness :
    (⟨1, 3⟩ : ScopedRow) ∈
      filter_by_user_scope [⟨1, 3⟩, ⟨2, 7⟩] ⟨true, [⟨"organization", 3⟩]⟩ "organization_id" :=
  ((c8_amended_scope_filtering [⟨1, 3⟩, ⟨2, 7⟩] ⟨true, [⟨"organization", 3⟩]⟩
      "organization_id" rfl (by decide)).1 ⟨1, 3⟩).mpr (by decide)

/-- ControlNode row (standards/models.py): hierarchy node of a standard
version, with node type, status and an optional parent id. -/
structure ControlNode where
  id : Nat
  standard_version : Nat
  node_type : String
  code : String
  parent : Option Nat
  status : String
  deriving DecidableEq, Repr

/-- Look a control node up by primary key. -/
def lookup (db : List ControlNode) (i : Nat) : Option ControlNode :=
  db.find? (fun n => n.id == i)

/-- Parent pointer of the stored node with id `i` (none when the node is
absent or is a root). -/
def parentOf (db : List ControlNode) (i : Nat) : Option Nat :=
  (lookup db i).bind (fun n => n.parent)

/-- Follow the stored parent pointers `k` times from an optional start id. -/
def iterParent (db : List ControlNode) : Nat → Option Nat → Option Nat
  | 0, cur => cur
  | k + 1, cur => iterParent db k (cur.bind (parentOf db))

/-- Cycle-detection walk of ControlNode.clean: repeatedly step to the parent,
failing on any id already visited; `true` means the walk reached a root.
The fuel only bounds the walk; with fuel `db.length + 1` it can visit every
stored row once, matching the unbounded Python loop over finitely many
rows. -/
def cleanCycleCheck (db : List ControlNode) : Nat → List Nat → Option Nat → Bool
  | _, _, none => true
  | 0, _, some _ => false
  | fuel + 1, visited, some c =>
    if c ∈ visited then false
    else cleanCycleCheck db fuel (c :: visited) (parentOf db c)

/-- Allowed parent node types per node type: the `valid_hierarchies` dict of
ControlNode.clean. Node types absent from the dict (in particular `domain`)
are not checked. -/
def valid_hierarchies (node_type : String) : Option (List String) :=
  if node_type == "sub_domain" then some ["domain"]
  else if node_type == "control" then some ["domain", "sub_domain"]
  else if node_type == "sub_control" then some ["control"]
  else none

/-- ControlNode.clean (standards/models.py): for a node with a parent, first
walk the ancestor chain rejecting any circular reference, then reject a
parent whose node type is not allowed for this node's type. -/
def ControlNode.clean (db : List ControlNode) (self : ControlNode) : Except String Unit :=
  match self.parent with
  | none => Except.ok ()
  | some pid =>
    if cleanCycleCheck db (db.length + 1) [self.id] (some pid) then
      match valid_hierarchies self.node_type, lookup db pid with
      | some allowed, some p =>
        if allowed.contains p.node_type then Except.ok ()
        else Except.error (self.node_type ++ " cannot have parent of type " ++ p.node_type)
      | _, _ => Except.ok ()
    else Except.error "Circular parent reference detected"

/-- Write a row: replace the stored row with the same id, or append. -/
def upsert (db : List ControlNode) (n : ControlNode) : List ControlNode :=
  if db.any (fun m => m.id == n.id) then
    db.map (fun m => if m.id == n.id then n else m)
  else
    db ++ [n]

/-- Validate-then-persist: run ControlNode.clean and only on success write
the row; a ValidationError leaves the table untouched. -/
def full_clean_and_save (db : List ControlNode) (n : ControlNode) :
    Except String (List ControlNode) :=
  match ControlNode.clean db n with
  | Except.ok _ => Except.ok (upsert db n)
  | Except.error e => Except.error e

/-- Store with one active domain, used by the C5 counterexample. -/
def c5db : List ControlNode :=
  [⟨0, 1, "domain", "D0", none, "active"⟩]

/-- Candidate node for the C5 counterexample: a domain whose parent is the
stored domain. -/
def c5node : ControlNode :=
  ⟨1, 1, "domain", "D1", some 0, "active"⟩

/-- C5 counterexample: a `domain` node with a parent (itself a domain) is
accepted by validation and persisted, although the claim says a domain must
have no parent at all (the `valid_hierarchies` dict has no entry for
`domain`, so a domain's parent is never checked). -/
theorem c5_counterexample :
    c5node.node_type = "domain" ∧ c5node.parent = some 0 ∧
      full_clean_and_save c5db c5node = Except.ok (c5db ++ [c5node]) := by
  refine ⟨rfl, rfl, ?_⟩
  rfl

/-- C5 amended: for a node with a parent whose ancestor walk is accepted,
validation succeeds iff the node-type table is respected for the three
checked types — a sub_domain's parent must be a domain, a control's parent a
domain or sub_domain, a sub_control's parent a control — while a `domain`
node's parent is not validated at all (any parent type is accepted);
a node failing the table is rejected before persistence. -/
theorem c5_amended_node_type_compat (db : List ControlNode) (n : ControlNode)
    (pid : Nat) (p : ControlNode)
    (h1 : n.parent = some pid) (h2 : lookup db pid = some p)
    (h3 : cleanCycleCheck db (db.length + 1) [n.id] (some pid) = true) :
    (ControlNode.clean db n = Except.ok () ↔
      ((n.node_type = "sub_domain" → p.node_type = "domain") ∧
        (n.node_type = "control" →
          (p.node_type = "domain" ∨ p.node_type = "sub_domain")) ∧
        (n.node_type = "sub_control" → p.node_type = "control"))) ∧
    (ControlNode.clean db n ≠ Except.ok () →
      ∀ db', full_clean_and_save db n ≠ Except.ok db') := by
  constructor
  · by_cases hsd : n.node_type = "sub_domain"
    · simp [ControlNode.clean, h1, h2, h3, valid_hierarchies, hsd]
    · by_cases hc : n.node_type = "control"
      · simp [ControlNode.clean, h1, h2, h3, valid_hierarchies, hc]
        constructor
        · intro h
          by_cases hpd : p.node_type = "domain"
          · exact Or.inl hpd
          · by_cases hps : p.node_type = "sub_domain"
            · exact Or.inr hps
            · simp [hpd, hps] at h
        · rintro (h | h) <;> simp [h]
      · by_cases hsc : n.node_type = "sub_control"
        · simp [ControlNode.clean, h1, h2, h3, valid_hierarchies, hsc]
        · simp [ControlNode.clean, h1, h2, h3, valid_hierarchies, hsd, hc, hsc]
  · intro hne db' hs
    unfold full_clean_and_save at hs
    cases hcl : ControlNode.clean db n with
    | ok u =>
      cases u
      exact hne hcl
    | error e =>
      rw [hcl] at hs
      simp at hs

/-- Witness for C5's amended theorem: a control with a sub_domain parent is
accepted, and a sub_control with a domain parent is rejected and not
persisted. -/
theorem c5_amended_node_type_compat_witness :
    ControlNode.clean [⟨0, 1, "sub_domain", "D0", none, "active"⟩]
        ⟨1, 1, "control", "C1", some 0, "active"⟩ = Except.ok () ∧
      ∀ db', full_clean_and_save [⟨0, 1, "domain", "D0", none, "active"⟩]
          ⟨1, 1, "sub_control", "S1", some 0, "active"⟩ ≠ Except.ok db' := by
  constructor
  · exact (c5_amended_node_type_compat
      [⟨0, 1, "sub_domain", "D0", none, "active"⟩]
      ⟨1, 1, "control", "C1", some 0, "active"⟩ 0
      ⟨0, 1, "sub_domain", "D0", none, "active"⟩ rfl rfl rfl).1.mpr (by simp)
  · exact (c5_amended_node_type_compat
      [⟨0, 1, "domain", "D0", none, "active"⟩]
      ⟨1, 1, "sub_control", "S1", some 0, "active"⟩ 0
      ⟨0, 1, "domain", "D0", none, "active"⟩ rfl rfl rfl).2
      (by
        intro h
        have := (c5_amended_node_type_compat
          [⟨0, 1, "domain", "D0", none, "active"⟩]
          ⟨1, 1, "sub_control", "S1", some 0, "active"⟩ 0
          ⟨0, 1, "domain", "D0", none, "active"⟩ rfl rfl rfl).1.mp h
        simp at this)

/-- Following parents from nowhere stays nowhere. -/
theorem iterParent_none (db : List ControlNode) (k : Nat) :
    iterParent db k none = none := by
  induction k with
  | zero => rfl
  | succ k ih => simpa [iterParent] using ih

/-- Stepping the parent chain once commutes with the iteration count. -/
theorem iterParent_succ_some (db : List ControlNode) (k : Nat) (c : Nat) :
    iterParent db (k + 1) (some c) = iterParent db k (parentOf db c) := by
  simp [iterParent]

/-- A successful cycle-detection walk reached a root within its fuel. -/
theorem cleanCycleCheck_reaches_root (db : List ControlNode) :
    ∀ fuel visited cur, cleanCycleCheck db fuel visited cur = true →
      ∃ t ≤ fuel, iterParent db t cur = none := by
  intro fuel
  induction fuel with
  | zero =>
    intro visited cur h
    cases cur with
    | none => exact ⟨0, Nat.le_refl 0, rfl⟩
    | some c => simp [cleanCycleCheck] at h
  | succ fuel ih =>
    intro visited cur h
    cases cur with
    | none => exact ⟨0, Nat.zero_le _, rfl⟩
    | some c =>
      simp only [cleanCycleCheck] at h
      by_cases hc : c ∈ visited
      · simp [hc] at h
      · rw [if_neg hc] at h
        obtain ⟨t, ht, hiter⟩ := ih (c :: visited) (parentOf db c) h
        exact ⟨t + 1, Nat.succ_le_succ ht,
          by rw [iterParent_succ_some]; exact hiter⟩

/-- A successful cycle-detection walk never passes through an id that was
already in the visited set it started from. -/
theorem cleanCycleCheck_avoids_visited (db : List ControlNode) :
    ∀ fuel visited cur, cleanCycleCheck db fuel visited cur = true →
      ∀ j m, iterParent db j cur = some m → m ∉ visited := by
  intro fuel
  induction fuel with
  | zero =>
    intro visited cur h j m hj
    cases cur with
    | none => rw [iterParent_none] at hj; cases hj
    | some c => simp [cleanCycleCheck] at h
  | succ fuel ih =>
    intro visited cur h j m hj
    cases cur with
    | none => rw [iterParent_none] at hj; cases hj
    | some c =>
      simp only [cleanCycleCheck] at h
      by_cases hc : c ∈ visited
      · simp [hc] at h
      · rw [if_neg hc] at h
        cases j with
        | zero =>
          have : c = m := Option.some.inj hj
          rw [← this]
          exact hc
        | succ j =>
          rw [iterParent_succ_some] at hj
          intro hmv
          exact ih (c :: visited) (parentOf db c) h j m hj
            (List.mem_cons_of_mem _ hmv)

/-- A successful cycle-detection walk visits no id twice. -/
theorem cleanCycleCheck_no_revisit (db : List ControlNode) :
    ∀ fuel visited cur, cleanCycleCheck db fuel visited cur = true →
      ∀ j k m, j < k → iterParent db j cur = some m →
        iterParent db k cur = some m → False := by
  intro fuel
  induction fuel with
  | zero =>
    intro visited cur h j k m _ hj _
    cases cur with
    | none => rw [iterParent_none] at hj; cases hj
    | some c => simp [cleanCycleCheck] at h
  | succ fuel ih =>
    intro visited cur h j k m hjk hj hk
    cases cur with
    | none => rw [iterParent_none] at hj; cases hj
    | some c =>
      simp only [cleanCycleCheck] at h
      by_cases hc : c ∈ visited
      · simp [hc] at h
      · rw [if_neg hc] at h
        cases j with
        | zero =>
          have hm : c = m := Option.some.inj hj
          cases k with
          | zero => exact absurd hjk (Nat.lt_irrefl 0)
          | succ k =>
            rw [iterParent_succ_some] at hk
            exact cleanCycleCheck_avoids_visited db fuel (c :: visited)
              (parentOf db c) h k m hk (hm ▸ List.mem_cons_self c visited)
        | succ j =>
          cases k with
          | zero => exact absurd hjk (by omega)
          | succ k =>
            rw [iterParent_succ_some] at hj hk
            exact ih (c :: visited) (parentOf db c) h j k m
              (Nat.lt_of_succ_lt_succ hjk) hj hk

/-- Depth walk of ControlNode.get_depth, with fuel: returns the accumulator
plus the number of ancestors above the start, or none if the fuel runs out
first. -/
def get_depthAux (db : List ControlNode) : Nat → Nat → Option Nat → Option Nat
  | _, d, none => some d
  | 0, _, some _ => none
  | fuel + 1, d, some c => get_depthAux db fuel (d + 1) (parentOf db c)

/-- ControlNode.get_depth (standards/models.py; 0 = root), with fuel
`db.length + 1` on the loop. -/
def get_depth (db : List ControlNode) (n : ControlNode) : Option Nat :=
  get_depthAux db (db.length + 1) 0 n.parent

/-- Accumulator-free evaluation of the depth walk on a chain that reaches a
root within the fuel. -/
theorem get_depthAux_of_reaches (db : List ControlNode) :
    ∀ t fuel d0 cur, iterParent db t cur = none → t ≤ fuel →
      ∃ d ≤ t, get_depthAux db fuel d0 cur = some (d0 + d) ∧
        iterParent db d cur = none := by
  intro t
  induction t with
  | zero =>
    intro fuel d0 cur h _
    rw [show iterParent db 0 cur = cur from rfl] at h
    subst h
    refine ⟨0, Nat.le_refl 0, ?_, rfl⟩
    cases fuel <;> simp [get_depthAux]
  | succ t ih =>
    intro fuel d0 cur h hle
    cases cur with
    | none =>
      refine ⟨0, Nat.zero_le _, ?_, rfl⟩
      cases fuel <;> simp [get_depthAux]
    | some c =>
      cases fuel with
      | zero => exact absurd hle (by omega)
      | succ fuel =>
        rw [iterParent_succ_some] at h
        obtain ⟨d, hd, hdepth, hiter⟩ :=
          ih fuel (d0 + 1) (parentOf db c) h (Nat.le_of_succ_le_succ hle)
        refine ⟨d + 1, Nat.succ_le_succ hd, ?_, ?_⟩
        · rw [show get_depthAux db (fuel + 1) d0 (some c) =
              get_depthAux db fuel (d0 + 1) (parentOf db c) from rfl, hdepth]
          congr 1
          omega
        · rw [iterParent_succ_some]
          exact hiter

/-- C6: a ControlNode accepted by validation and stored consistently has a
parent chain that reaches null in exactly depth+1 steps (in particular
`get_depth` returns a value, so the ancestor walks terminate); and a parent
assignment whose ancestor chain revisits any node — the validated node itself
or any other — is rejected with the circular-reference ValidationError and is
not persisted. -/
theorem c6_hierarchy_acyclicity :
    (∀ (db : List ControlNode) (n : ControlNode), lookup db n.id = some n →
        ControlNode.clean db n = Except.ok () →
        ∃ d, get_depth db n = some d ∧ iterParent db (d + 1) (some n.id) = none) ∧
    (∀ (db : List ControlNode) (n : ControlNode) (pid : Nat), n.parent = some pid →
        ((∃ j, iterParent db j (some pid) = some n.id) ∨
          (∃ m j k, j < k ∧ iterParent db j (some pid) = some m ∧
            iterParent db k (some pid) = some m)) →
        ControlNode.clean db n = Except.error "Circular parent reference detected" ∧
          ∀ db', full_clean_and_save db n ≠ Except.ok db') := by
  constructor
  · intro db n hlook hok
    have hpn : parentOf db n.id = n.parent := by
      simp [parentOf, hlook]
    cases hp : n.parent with
    | none =>
      refine ⟨0, ?_, ?_⟩
      · simp [get_depth, hp, get_depthAux]
      · rw [iterParent_succ_some, hpn, hp, iterParent_none]
    | some pid =>
      have hcheck : cleanCycleCheck db (db.length + 1) [n.id] (some pid) = true := by
        by_contra hfc
        have hfc' : cleanCycleCheck db (db.length + 1) [n.id] (some pid) = false := by
          cases hcc : cleanCycleCheck db (db.length + 1) [n.id] (some pid) with
          | true => exact absurd hcc hfc
          | false => rfl
        rw [ControlNode.clean, hp] at hok
        simp [hfc'] at hok
      obtain ⟨t, htle, hreach⟩ :=
        cleanCycleCheck_reaches_root db (db.length + 1) [n.id] (some pid) hcheck
      obtain ⟨d, _, hdepth, hiter⟩ :=
        get_depthAux_of_reaches db t (db.length + 1) 0 (some pid) hreach htle
      refine ⟨d, ?_, ?_⟩
      · rw [get_depth, hp, hdepth]
        congr 1
        omega
      · rw [iterParent_succ_some, hpn, hp]
        exact hiter
  · intro db n pid hp hrev
    have hfalse : cleanCycleCheck db (db.length + 1) [n.id] (some pid) = false := by
      cases hcc : cleanCycleCheck db (db.length + 1) [n.id] (some pid) with
      | false => rfl
      | true =>
        exfalso
        rcases hrev with ⟨j, hj⟩ | ⟨m, j, k, hjk, hj, hk⟩
        · exact cleanCycleCheck_avoids_visited db (db.length + 1) [n.id]
            (some pid) hcc j n.id hj (List.mem_singleton.mpr rfl)
        · exact cleanCycleCheck_no_revisit db (db.length + 1) [n.id]
            (some pid) hcc j k m hjk hj hk
    have hclean :
        ControlNode.clean db n = Except.error "Circular parent reference detected" := by
      rw [ControlNode.clean, hp]
      simp [hfalse]
    refine ⟨hclean, ?_⟩
    intro db' hs
    unfold full_clean_and_save at hs
    rw [hclean] at hs
    simp at hs

/-- Store for the C6 witness: one active domain with one child control. -/
def c6db : List ControlNode :=
  [⟨0, 1, "domain", "D0", none, "active"⟩, ⟨1, 1, "control", "C1", some 0, "active"⟩]

/-- The stored child control of the C6 witness store. -/
def c6node : ControlNode :=
  ⟨1, 1, "control", "C1", some 0, "active"⟩

/-- Store for the C6 cycle witness: two nodes pointing at each other. -/
def c6cycdb : List ControlNode :=
  [⟨1, 1, "control", "C1", some 2, "active"⟩, ⟨2, 1, "control", "C2", some 1, "active"⟩]

/-- Node being re-validated in the C6 cycle witness. -/
def c6cycnode : ControlNode :=
  ⟨1, 1, "control", "C1", some 2, "active"⟩

/-- Witness for C6 at concrete stores: the validated child control's chain
reaches a root within depth+1 steps, and validating a node inside a two-node
parent cycle raises the circular-reference error. -/
theorem c6_hierarchy_acyclicity_witness :
    (∃ d, get_depth c6db c6node = some d ∧
      iterParent c6db (d + 1) (some c6node.id) = none) ∧
    ControlNode.clean c6cycdb c6cycnode =
      Except.error "Circular parent reference detected" :=
  ⟨c6_hierarchy_acyclicity.1 c6db c6node rfl rfl,
    (c6_hierarchy_acyclicity.2 c6cycdb c6cycnode 2 rfl (Or.inl ⟨1, rfl⟩)).1⟩

/-- AssessmentScope row (assessments/models.py): one scoped control and the
include-children flag (default true). -/
structure AssessmentScope where
  control_node : Nat
  include_children : Bool
  deriving DecidableEq, Repr

/-- Assessment row (assessments/models.py), restricted to what scope
resolution and materialization read. -/
structure Assessment where
  id : Nat
  tenant : Nat
  standard_version : Nat
  scopes : List AssessmentScope
  deriving DecidableEq, Repr

/-- AssessmentQuestion row (assessments/models.py): the materialized
snapshot. Its Meta declares ordering and indexes but no uniqueness
constraint. -/
structure AssessmentQuestion where
  id : Nat
  tenant : Nat
  assessment : Nat
  source_question : Nat
  control_node : Nat
  question_code : String
  question_text : String
  question_type : String
  scale_type : String
  guidance : String
  pptdf_code : String
  erl_refs : List String
  suggested_evidence_tags : List String
  display_order : Int
  is_mandatory : Bool
  deriving DecidableEq, Repr

/-- ControlQuestionMap row with the fields the imported model
(question_bank/models.py) actually declares: tenant, control node, question
bank, rationale and the optional criticality override. The is_active,
question, display_order and is_mandatory accesses made by
assessments/materialization.py have no counterpart on this model and fail at
run time (see cqmActiveQuery and matLoop). -/
structure ControlQuestionMap where
  id : Nat
  tenant : Nat
  control_node : Nat
  question_bank : Nat
  rationale : String
  criticality_override : Option ℚ
  deriving DecidableEq, Repr

/-- Child rows of node `i` (the ControlNode.children related manager). -/
def childrenOf (db : List ControlNode) (i : Nat) : List ControlNode :=
  db.filter (fun c => c.parent == some i)

/-- ControlNode.get_descendants (standards/models.py): all nodes of the
subtree below `i`, pre-order, built and returned as a plain Python list.
The fuel bounds the recursion depth; depth `db.length` covers every acyclic
store. -/
def get_descendants (db : List ControlNode) : Nat → Nat → List ControlNode
  | 0, _ => []
  | fuel + 1, i =>
    (childrenOf db i).bind (fun c => c :: get_descendants db fuel c.id)

/-- Collections a caller can hold: a Django QuerySet exposes values_list,
a plain Python list does not. -/
inductive Rows where
  | queryset : List ControlNode → Rows
  | pylist : List ControlNode → Rows
  deriving DecidableEq, Repr

/-- The values_list call (id column, flat) the scope collector makes on the
descendants collection: defined on a QuerySet, an AttributeError on a plain
list. -/
def values_list_id : Rows → Except String (List Nat)
  | Rows.queryset l => Except.ok (l.map (fun c => c.id))
  | Rows.pylist _ =>
    Except.error "AttributeError: list object has no attribute values_list"

/-- Descendants of node `i` as get_scoped_controls receives them: the plain
list built by ControlNode.get_descendants. -/
def descendantsRows (db : List ControlNode) (i : Nat) : Rows :=
  Rows.pylist (get_descendants db db.length i)

/-- Scope-id accumulation loop of get_scoped_controls
(assessments/materialization.py): add each scoped node's id and, when
include_children, the ids delivered by values_list on the descendants — a
call that raises, the descendants being a plain list. -/
def collectScopeIds (db : List ControlNode) :
    List AssessmentScope → List Nat → Except String (List Nat)
  | [], acc => Except.ok acc
  | s :: rest, acc =>
    if s.include_children then
      match values_list_id (descendantsRows db s.control_node) with
      | Except.error e => Except.error e
      | Except.ok ids => collectScopeIds db rest ((acc ++ [s.control_node]) ++ ids)
    else
      collectScopeIds db rest (acc ++ [s.control_node])

/-- get_scoped_controls (assessments/materialization.py): with no explicit
scopes, all active controls of the assessment's standard version; otherwise
the accumulated scope ids (erroring on any include_children row) filtered to
active status. -/
def get_scoped_controls (db : List ControlNode) (a : Assessment) :
    Except String (List ControlNode) :=
  if a.scopes.isEmpty then
    Except.ok (db.filter (fun c =>
      c.standard_version == a.standard_version && c.status == "active"))
  else
    match collectScopeIds db a.scopes [] with
    | Except.error e => Except.error e
    | Except.ok control_ids =>
      Except.ok (db.filter (fun c =>
        control_ids.contains c.id && c.status == "active"))

/-- Database state: the control catalog, the control-question mapping table
and the materialized assessment questions. -/
structure DB where
  controlNodes : List ControlNode
  cqMaps : List ControlQuestionMap
  assessmentQuestions : List AssessmentQuestion
  deriving Repr

/-- Field names declared by the ControlQuestionMap model
(question_bank/models.py). -/
def controlQuestionMapFields : List String :=
  ["id", "tenant", "control_node", "question_bank", "rationale",
   "criticality_override", "created_at", "updated_at"]

/-- Eager keyword resolution of a Django filter call: every keyword must
name a field of the model; the first unknown keyword raises FieldError
before any row is read. -/
def resolveFilterKeywords (fields : List String) (keywords : List String) :
    Except String Unit :=
  match keywords.find? (fun k => !(fields.contains k)) with
  | some k =>
    Except.error ("FieldError: Cannot resolve keyword " ++ k ++ " into field")
  | none => Except.ok ()

/-- The per-control mapping query of the materializer:
ControlQuestionMap.objects.filter with keywords control_node and is_active.
The model declares no is_active field, so the keyword resolution raises and
no row is ever read. -/
def cqmActiveQuery (db : DB) (c : ControlNode) :
    Except String (List ControlQuestionMap) :=
  match resolveFilterKeywords controlQuestionMapFields
      ["control_node", "is_active"] with
  | Except.error e => Except.error e
  | Except.ok _ => Except.ok (db.cqMaps.filter (fun m => m.control_node == c.id))

/-- Loop of materialize_assessment_questions over the scoped controls. An
iteration cannot get past its first statement: the mapping query raises
FieldError on the phantom is_active keyword; were the query ever to return,
the snapshot reads of qmap.question, qmap.display_order and
qmap.is_mandatory would raise AttributeError on this model just as surely,
so no iteration can create a row. -/
def matLoop (db : DB) :
    List ControlNode → Nat → Nat → Except String (DB × Nat × Nat)
  | [], qc, cc => Except.ok (db, qc, cc)
  | c :: _, _, _ =>
    match cqmActiveQuery db c with
    | Except.error e => Except.error e
    | Except.ok _ =>
      Except.error "AttributeError: ControlQuestionMap object has no attribute question"

/-- Statistics dict returned by materialize_assessment_questions. -/
structure MatStats where
  questions_created : Nat
  controls_in_scope : Nat
  controls_with_questions : Nat
  status : String
  deriving DecidableEq, Repr

/-- materialize_assessment_questions (assessments/materialization.py); the
controls_in_scope count re-evaluates the scope query against the final
state, as the trailing queryset count() does. -/
def materialize_assessment_questions (db : DB) (a : Assessment) :
    Except String (DB × MatStats) :=
  match get_scoped_controls db.controlNodes a with
  | Except.error e => Except.error e
  | Except.ok scoped_controls =>
    match matLoop db scoped_controls 0 0 with
    | Except.error e => Except.error e
    | Except.ok r =>
      match get_scoped_controls r.1.controlNodes a with
      | Except.error e => Except.error e
      | Except.ok counted =>
        Except.ok (r.1,
          { questions_created := r.2.1
            controls_in_scope := counted.length
            controls_with_questions := r.2.2
            status := "success" })

/-- Statistics dict returned by rematerialize_assessment_questions. -/
structure RematStats extends MatStats where
  questions_deleted : Nat
  deriving DecidableEq, Repr

/-- rematerialize_assessment_questions (assessments/materialization.py):
inside one atomic transaction, delete the assessment's snapshot rows and
materialize afresh; an exception from the fresh run rolls the deletion back,
so the error case carries no new state. -/
def rematerialize_assessment_questions (db : DB) (a : Assessment) :
    Except String (DB × RematStats) :=
  let deleted_count :=
    (db.assessmentQuestions.filter (fun q => q.assessment == a.id)).length
  let db1 : DB :=
    { db with
      assessmentQuestions :=
        db.assessmentQuestions.filter (fun q => !(q.assessment == a.id)) }
  match materialize_assessment_questions db1 a with
  | Except.error e => Except.error e
  | Except.ok r =>
    Except.ok (r.1, { toMatStats := r.2, questions_deleted := deleted_count })

/-- The mapping query always raises: is_active names no ControlQuestionMap
field. -/
theorem cqmActiveQuery_error (db : DB) (c : ControlNode) :
    cqmActiveQuery db c =
      Except.error "FieldError: Cannot resolve keyword is_active into field" := rfl

/-- The materializer loop raises on any nonempty control list. -/
theorem matLoop_cons_error (db : DB) (c : ControlNode) (rest : List ControlNode)
    (qc cc : Nat) :
    matLoop db (c :: rest) qc cc =
      Except.error "FieldError: Cannot resolve keyword is_active into field" := by
  simp only [matLoop, cqmActiveQuery_error]

/-- Scope-id accumulation raises as soon as any scope row asks for
children. -/
theorem collectScopeIds_error (db : List ControlNode) :
    ∀ (scopes : List AssessmentScope) (acc : List Nat),
      (∃ s ∈ scopes, s.include_children = true) →
      collectScopeIds db scopes acc =
        Except.error "AttributeError: list object has no attribute values_list" := by
  intro scopes
  induction scopes with
  | nil =>
    intro acc h
    rcases h with ⟨s, hs, -⟩
    cases hs
  | cons s rest ih =>
    intro acc h
    by_cases hc : s.include_children = true
    · simp [collectScopeIds, hc, descendantsRows, values_list_id]
    · have hc' : s.include_children = false := by simpa using hc
      rcases h with ⟨t, ht, hti⟩
      rcases List.mem_cons.mp ht with rfl | ht'
      · exact absurd hti hc
      · simp only [collectScopeIds, hc', Bool.false_eq_true, if_false]
        exact ih _ ⟨t, ht', hti⟩

/-- With children excluded on every scope row, the accumulation returns the
scoped node ids appended to the accumulator. -/
theorem collectScopeIds_no_children (db : List ControlNode) :
    ∀ (scopes : List AssessmentScope) (acc : List Nat),
      (∀ s ∈ scopes, s.include_children = false) →
      collectScopeIds db scopes acc =
        Except.ok (acc ++ scopes.map (fun s => s.control_node)) := by
  intro scopes
  induction scopes with
  | nil =>
    intro acc _
    simp [collectScopeIds]
  | cons s rest ih =>
    intro acc h
    have hc : s.include_children = false := h s (List.mem_cons_self s rest)
    simp only [collectScopeIds, hc, Bool.false_eq_true, if_false]
    rw [ih (acc ++ [s.control_node]) (fun t ht => h t (List.mem_cons_of_mem _ ht))]
    simp

/-- Bool-valued list containment agrees with membership. -/
theorem contains_iff (l : List Nat) (x : Nat) : l.contains x = true ↔ x ∈ l := by
  simp

/-- C2 (code bug): with no scope rows, get_scoped_controls returns all
active controls of the assessment's standard version; but any scope row
with include_children (the field default) raises AttributeError —
get_descendants returns a plain list and the collector calls values_list on
it — so the claimed descendant expansion never happens; with scope rows all
excluding children, the result is the scoped nodes filtered to active
status (a deprecated explicitly scoped node is dropped). -/
theorem c2_scope_resolution_contract :
    (∀ (db : List ControlNode) (a : Assessment), a.scopes = [] →
        get_scoped_controls db a =
          Except.ok (db.filter (fun c =>
            c.standard_version == a.standard_version && c.status == "active"))) ∧
    (∀ (db : List ControlNode) (a : Assessment),
        (∃ s ∈ a.scopes, s.include_children = true) →
        get_scoped_controls db a =
          Except.error "AttributeError: list object has no attribute values_list") ∧
    (∀ (db : List ControlNode) (a : Assessment) (l : List ControlNode)
        (c : ControlNode), a.scopes ≠ [] →
        (∀ s ∈ a.scopes, s.include_children = false) →
        get_scoped_controls db a = Except.ok l →
        (c ∈ l ↔ c ∈ db ∧ c.status = "active" ∧
          ∃ s ∈ a.scopes, c.id = s.control_node)) := by
  refine ⟨?_, ?_, ?_⟩
  · intro db a h
    simp [get_scoped_controls, h]
  · intro db a h
    have hne : a.scopes ≠ [] := by
      rcases h with ⟨s, hs, -⟩
      intro hnil
      rw [hnil] at hs
      cases hs
    have hs' : a.scopes.isEmpty = false := by
      cases hsc : a.scopes with
      | nil => exact absurd hsc hne
      | cons x xs => rfl
    simp only [get_scoped_controls, hs', Bool.false_eq_true, if_false,
      collectScopeIds_error db a.scopes [] h]
  · intro db a l c hne hall hok
    have hs' : a.scopes.isEmpty = false := by
      cases hsc : a.scopes with
      | nil => exact absurd hsc hne
      | cons x xs => rfl
    simp only [get_scoped_controls, hs', Bool.false_eq_true, if_false,
      collectScopeIds_no_children db a.scopes [] hall, List.nil_append] at hok
    have hl := (Except.ok.inj hok).symm
    subst hl
    simp only [List.mem_filter, Bool.and_eq_true, beq_iff_eq, contains_iff,
      List.mem_map]
    constructor
    · rintro ⟨hdb, ⟨s, hs, hsid⟩, hact⟩
      exact ⟨hdb, hact, s, hs, hsid.symm⟩
    · rintro ⟨hdb, hact, s, hs, hsid⟩
      exact ⟨hdb, ⟨s, hs, hsid.symm⟩, hact⟩

/-- Assessment of the C2 witness: one scope row with include_children set
(the field default). -/
def c2a : Assessment := ⟨12, 1, 1, [⟨0, true⟩]⟩

/-- Witness for C2: the include_children scope row raises the
AttributeError at a concrete input. -/
theorem c2_scope_resolution_contract_witness :
    get_scoped_controls [] c2a =
      Except.error "AttributeError: list object has no attribute values_list" :=
  c2_scope_resolution_contract.2.1 [] c2a (by decide)

/-- C1 (code bug): for any assessment whose scope resolves to at least one
control, materialize_assessment_questions never returns the claimed counts —
it raises FieldError on its very first mapping query, the ControlQuestionMap
model having no is_active field. -/
theorem c1_materialization_field_error (db : DB) (a : Assessment)
    (c : ControlNode) (rest : List ControlNode)
    (hscope : get_scoped_controls db.controlNodes a = Except.ok (c :: rest)) :
    materialize_assessment_questions db a =
      Except.error "FieldError: Cannot resolve keyword is_active into field" := by
  simp only [materialize_assessment_questions, hscope, matLoop_cons_error]

/-- Control of the C1 witness store. -/
def c1node : ControlNode := ⟨0, 1, "control", "C1", none, "active"⟩

/-- Database of the C1 witness: one active control, no mappings, no
snapshots. -/
def c1db : DB := ⟨[c1node], [], []⟩

/-- Assessment of the C1 witness: unscoped, on standard version 1. -/
def c1a : Assessment := ⟨10, 1, 1, []⟩

/-- Witness for C1: at the concrete store the materializer raises the
FieldError instead of creating the mapped-question counts the claim
expects. -/
theorem c1_materialization_field_error_witness :
    materialize_assessment_questions c1db c1a =
      Except.error "FieldError: Cannot resolve keyword is_active into field" :=
  c1_materialization_field_error c1db c1a c1node [] rfl

/-- C3 (code bug): rematerialization deletes and re-materializes inside one
atomic transaction; whenever the scope resolves to at least one control the
fresh materialization raises FieldError and the transaction rolls the
deletion back (the error case carries no new state, so every original row
survives); only when the scope resolves to no control does the call
complete, reporting the K deleted rows and creating none. -/
theorem c3_rematerialization_rollback :
    (∀ (db : DB) (a : Assessment) (c : ControlNode) (rest : List ControlNode),
        get_scoped_controls db.controlNodes a = Except.ok (c :: rest) →
        rematerialize_assessment_questions db a =
          Except.error "FieldError: Cannot resolve keyword is_active into field") ∧
    (∀ (db : DB) (a : Assessment),
        get_scoped_controls db.controlNodes a = Except.ok [] →
        rematerialize_assessment_questions db a =
          Except.ok
            ({ db with
                assessmentQuestions :=
                  db.assessmentQuestions.filter (fun q => !(q.assessment == a.id)) },
              { questions_created := 0
                controls_in_scope := 0
                controls_with_questions := 0
                status := "success"
                questions_deleted :=
                  (db.assessmentQuestions.filter
                    (fun q => q.assessment == a.id)).length })) := by
  constructor
  · intro db a c rest hscope
    have hdb1 : ({ db with
        assessmentQuestions :=
          db.assessmentQuestions.filter (fun q => !(q.assessment == a.id)) } :
          DB).controlNodes = db.controlNodes := rfl
    simp only [rematerialize_assessment_questions,
      materialize_assessment_questions, hdb1, hscope, matLoop_cons_error]
  · intro db a hscope
    have hdb1 : ({ db with
        assessmentQuestions :=
          db.assessmentQuestions.filter (fun q => !(q.assessment == a.id)) } :
          DB).controlNodes = db.controlNodes := rfl
    simp only [rematerialize_assessment_questions,
      materialize_assessment_questions, hdb1, hscope, matLoop, List.length_nil]

/-- Control of the C3 witness store. -/
def c3node : ControlNode := ⟨3, 1, "control", "C3", none, "active"⟩

/-- Existing snapshot row of the C3 witness database. -/
def c3q : AssessmentQuestion :=
  ⟨0, 1, 10, 0, 0, "Q1", "text", "single_choice", "LIKERT_1_5", "", "", [], [], 0, true⟩

/-- Assessment of the C3 witness: unscoped, on standard version 1, holding
one existing snapshot row. -/
def c3a : Assessment := ⟨10, 1, 1, []⟩

/-- Database of the C3 witness: one active control and one snapshot row of
the assessment. -/
def c3db : DB := ⟨[c3node], [], [c3q]⟩

/-- Witness for C3: at the concrete store the rollback case fires — the call
raises FieldError, so the deletion does not survive and the original row
remains. -/
theorem c3_rematerialization_rollback_witness :
    rematerialize_assessment_questions c3db c3a =
      Except.error "FieldError: Cannot resolve keyword is_active into field" :=
  c3_rematerialization_rollback.1 c3db c3a c3node [] rfl

/-- C4 (code bug): the claimed duplication is unreachable — every completing
materialize run resolved an empty scope, created zero questions and left the
database unchanged, so a repeated call returns the very same result instead
of appending Q duplicate rows; a run that would create questions raises
FieldError instead. -/
theorem c4_duplication_unreachable (db : DB) (a : Assessment)
    (r : DB × MatStats)
    (h : materialize_assessment_questions db a = Except.ok r) :
    r.2.questions_created = 0 ∧ r.1 = db ∧
      materialize_assessment_questions r.1 a =
        materialize_assessment_questions db a := by
  cases hg : get_scoped_controls db.controlNodes a with
  | error e =>
    simp only [materialize_assessment_questions, hg] at h
    simp at h
  | ok sc =>
    cases sc with
    | nil =>
      simp only [materialize_assessment_questions, hg, matLoop,
        List.length_nil] at h
      have hr := Except.ok.inj h
      subst hr
      exact ⟨rfl, rfl, rfl⟩
    | cons c rest =>
      rw [show materialize_assessment_questions db a =
          Except.error "FieldError: Cannot resolve keyword is_active into field"
        from by simp only [materialize_assessment_questions, hg,
          matLoop_cons_error]] at h
      cases h

/-- Assessment of the C4 witness: unscoped, with no matching controls. -/
def c4a : Assessment := ⟨11, 1, 1, []⟩

/-- Empty database of the C4 witness. -/
def c4db : DB := ⟨[], [], []⟩

/-- Completed result of the C4 witness run. -/
def c4r : DB × MatStats := (c4db, ⟨0, 0, 0, "success"⟩)

/-- Witness for C4: the one kind of run that completes creates nothing and
leaves the database unchanged, so re-running it reproduces the same result
instead of duplicating rows. -/
theorem c4_duplication_unreachable_witness :
    c4r.2.questions_created = 0 ∧ c4r.1 = c4db ∧
      materialize_assessment_questions c4r.1 c4a =
        materialize_assessment_questions c4db c4a :=
  c4_duplication_unreachable c4db c4a c4r rfl

/-- Tenant (tenancy/models.py), reduced to the hex form of its UUID primary
key (`tenant.id.hex`: 32 lowercase hex characters, no dashes). -/
structure Tenant where
  idHex : String
  deriving DecidableEq, Repr

/-- Finding row (findings/models.py), reduced to the fields the save-time
numbering reads: the owning tenant and the finding number (empty string =
not set, the CharField default). -/
structure Finding where
  tenant : Tenant
  finding_number : String
  deriving DecidableEq, Repr

/-- Uppercase a string character by character, the Python str.upper() on the
ASCII hex characters involved here (String.toUpper itself is not
kernel-reducible, so the character-list form is used). -/
def strUpper (s : String) : String := String.mk (s.toList.map Char.toUpper)

/-- Decimal rendering of `n` left-padded with zeros to at least four digits,
the 04d format specifier applied to a natural count. -/
def pad4 (n : Nat) : String :=
  let s := toString n
  String.mk (List.replicate (4 - s.length) '0') ++ s

/-- Finding.save (findings/models.py): when no finding number is set, assign
FND- followed by the first 6 hex chars of the tenant id uppercased, a dash,
and the tenant's current finding count plus one zero-padded to 4 digits;
then persist the row. -/
def finding_save (db : List Finding) (f : Finding) : List Finding × Finding :=
  let f' :=
    if f.finding_number = "" then
      let count := (db.filter (fun g => g.tenant == f.tenant)).length
      { f with
        finding_number :=
          "FND-" ++ strUpper (f.tenant.idHex.take 6) ++ "-" ++ pad4 (count + 1) }
    else f
  (db ++ [f'], f')

/-- C9: a Finding saved with no finding number receives
FND-(first 6 tenant hex chars, uppercase)-(prior count + 1, four digits),
while a Finding saved with an explicit (non-empty) finding number keeps it
unchanged. -/
theorem c9_finding_numbering (db : List Finding) (f : Finding) :
    (f.finding_number = "" →
      (finding_save db f).2.finding_number =
        "FND-" ++ strUpper (f.tenant.idHex.take 6) ++ "-" ++
          pad4 ((db.filter (fun g => g.tenant == f.tenant)).length + 1)) ∧
    (f.finding_number ≠ "" →
      (finding_save db f).2.finding_number = f.finding_number) := by
  constructor
  · intro h
    simp [finding_save, h]
  · intro h
    simp [finding_save, h]

/-- Tenant of the C9 witness, with id hex starting abcdef12. -/
def c9t : Tenant := ⟨"abcdef121234567890abcdef12345678"⟩

/-- Three prior findings of the C9 witness tenant. -/
def c9prior : List Finding :=
  [⟨c9t, "FND-ABCDEF-0001"⟩, ⟨c9t, "FND-ABCDEF-0002"⟩, ⟨c9t, "FND-ABCDEF-0003"⟩]

/-- Witness for C9: with tenant id hex starting abcdef12 and 3 prior
findings, the assigned number is FND-ABCDEF-0004. -/
theorem c9_finding_numbering_witness :
    (finding_save c9prior ⟨c9t, ""⟩).2.finding_number = "FND-ABCDEF-0004" :=
  ((c9_finding_numbering c9prior ⟨c9t, ""⟩).1 rfl).trans (by decide)

/-- Response row (responses/models.py) as read by the maturity scoring: the
materialized question (for its scale type), the selected_option entry of the
answer payload (none = key absent or null), the decimal maturity score
(none = unscored) and the workflow status. -/
structure Response where
  assessment_question : AssessmentQuestion
  selected_option : Option Int
  maturity_score : Option ℚ
  status : String
  deriving DecidableEq, Repr

/-- Response.calculate_maturity_score (responses/models.py): on a Likert 1-5
question a truthy (non-null, non-zero) selected option becomes the score and
anything else leaves the score unchanged; on a yes/no question the score is
always set, 5.0 for a selected option equal to 1 and 1.0 otherwise. -/
def Response.calculate_maturity_score (r : Response) : Response :=
  if r.assessment_question.scale_type == "LIKERT_1_5" then
    match r.selected_option with
    | some selected =>
      if selected == 0 then r
      else { r with maturity_score := some (selected : ℚ) }
    | none => r
  else if r.assessment_question.scale_type == "YES_NO" then
    { r with maturity_score := some (if r.selected_option == some 1 then (5 : ℚ) else 1) }
  else r

/-- Response.submit (responses/models.py): only draft responses can be
submitted; submission sets the status and then recalculates the maturity
score. -/
def Response.submit (r : Response) : Except String Response :=
  if !(r.status == "draft") then
    Except.error "Can only submit draft responses"
  else
    Except.ok (Response.calculate_maturity_score { r with status := "submitted" })

/-- C10: on a yes/no question the score is always assigned — 5.0 exactly for
a selected option equal to the integer 1, 1.0 for every other payload
including a missing key; on a Likert 1-5 question a missing, null or zero
selected option leaves the score unchanged, so a draft response can be
submitted yet remain unscored. -/
theorem c10_scoring_edge_cases :
    (∀ r : Response, r.assessment_question.scale_type = "YES_NO" →
        r.calculate_maturity_score.maturity_score =
          some (if r.selected_option = some 1 then (5 : ℚ) else 1)) ∧
    (∀ r : Response, r.assessment_question.scale_type = "LIKERT_1_5" →
        (r.selected_option = none ∨ r.selected_option = some 0) →
        r.calculate_maturity_score.maturity_score = r.maturity_score) ∧
    (∃ r r' : Response, r.status = "draft" ∧ r.maturity_score = none ∧
        r.submit = Except.ok r' ∧ r'.status = "submitted" ∧
        r'.maturity_score = none) := by
  refine ⟨?_, ?_, ?_⟩
  · intro r h
    by_cases hsel : r.selected_option = some 1
    · simp [Response.calculate_maturity_score, h, hsel]
    · have hsel' : (r.selected_option == some 1) = false :=
        beq_eq_false_iff_ne.mpr hsel
      simp [Response.calculate_maturity_score, h, hsel, hsel']
  · intro r h hsel
    rcases hsel with hsel | hsel <;>
      simp [Response.calculate_maturity_score, h, hsel]
  · refine ⟨⟨⟨0, 1, 10, 0, 0, "Q1", "t", "single_choice", "LIKERT_1_5", "", "",
      [], [], 0, true⟩, none, none, "draft"⟩,
      ⟨⟨0, 1, 10, 0, 0, "Q1", "t", "single_choice", "LIKERT_1_5", "", "",
        [], [], 0, true⟩, none, none, "submitted"⟩, rfl, rfl, ?_, rfl, rfl⟩
    rfl

/-- Question of the C10 witness: a yes/no scale question. -/
def c10q : AssessmentQuestion :=
  ⟨0, 1, 10, 0, 0, "Q2", "t", "single_choice", "YES_NO", "", "", [], [], 0, true⟩

/-- Witness for C10: a yes/no response whose payload has no selected option
is scored 1.0. -/
theorem c10_scoring_edge_cases_witness :
    (Response.calculate_maturity_score ⟨c10q, none, none, "draft"⟩).maturity_score =
      some 1 :=
  (c10_scoring_edge_cases.1 ⟨c10q, none, none, "draft"⟩ rfl).trans (by simp)

end Grc
